import Mathlib

/-!
Formal model of the chat-bot utility module (plugins/utils.py): two provider
clients with usage counters, an owner-only option router, command handlers,
a status reporter and an image proxy.  External network collaborators are
modelled by outcome oracles; the mutable module globals are gathered in an
explicit state record that every stateful function threads through.
-/

/-- The apostrophe character, used to assemble message strings. -/
def apos : String := String.mk [Char.ofNat 39]

/-- A caller identity as the Python code sees it: an int or a string. -/
inductive PyId where
  | int (n : Int)
  | str (s : String)
deriving DecidableEq

/-- Decimal digit character, models the rendering of one digit. -/
def digitChar (n : Nat) : Char := Char.ofNat (48 + n)

/-- Decimal rendering helper: the fuel always suffices because a number
below 10 ^ fuel has at most fuel digits. -/
def natStrAux : Nat → Nat → List Char
  | 0, _ => []
  | fuel + 1, n =>
    if n < 10 then [digitChar n]
    else natStrAux fuel (n / 10) ++ [digitChar (n % 10)]

/-- Decimal rendering of a natural number as a character list
(models Python str on a non-negative int, digit by digit). -/
def natStr (n : Nat) : List Char := natStrAux (n + 1) n

/-- Decimal rendering of a natural number as a string. -/
def natRepr (n : Nat) : String := String.mk (natStr n)

/-- Python str on an int (sign handled explicitly). -/
def intStr (n : Int) : String :=
  if n < 0 then "-" ++ natRepr n.natAbs else natRepr n.natAbs

/-- Python str applied to a caller identity. -/
def pyStr : PyId → String
  | .int n => intStr n
  | .str s => s

/-- Python truthiness of a caller identity: zero and the empty string are falsy. -/
def pyTruthy : PyId → Bool
  | .int n => n != 0
  | .str s => s != ""

/-- Python truthiness of an optional caller identity (None is falsy). -/
def idTruthy : Option PyId → Bool
  | none => false
  | some i => pyTruthy i

/-- Python str applied to an optional caller identity (str None is the text None). -/
def optIdStr : Option PyId → String
  | none => "None"
  | some i => pyStr i

/-- Python str applied to the OWNER_ID environment value: when the variable is
unset, os.getenv returns None and str of it is the text None. -/
def ownerStr : Option String → String
  | none => "None"
  | some s => s

/-- The mutable module globals of utils.py:
current_option, owner_temp_option, deepinfra_requests, g4f_requests. -/
structure BotState where
  current_option : Nat
  owner_temp_option : Option Nat
  deepinfra_requests : Nat
  g4f_requests : Nat
deriving DecidableEq

/-- Python truthiness of owner_temp_option: None and 0 are falsy. -/
def tempTruthy : Option Nat → Bool
  | none => false
  | some t => t != 0

/-- The int stored in owner_temp_option (only read under a truthiness guard,
so the None branch is never reached by the modelled code). -/
def tempValue : Option Nat → Nat
  | none => 0
  | some t => t

/-- States reachable through the command interface: both option slots hold
only the enumerated provider selections 1 and 2. -/
def StateWF (st : BotState) : Prop :=
  (st.current_option = 1 ∨ st.current_option = 2) ∧
  (st.owner_temp_option = none ∨ st.owner_temp_option = some 1 ∨
    st.owner_temp_option = some 2)

/-- One chat message: a role/content pair. -/
structure Msg where
  role : String
  content : String
deriving DecidableEq

/-- Outcome of the external steps of deepinfra_response, in source order:
netFail models requests.post raising, jsonFail models response.json raising
on a received response, extractFail models the choices/message/content
lookup raising on parsed data, ok carries the extracted content. -/
inductive DIOutcome where
  | netFail
  | jsonFail
  | extractFail
  | ok (content : String)
deriving DecidableEq

/-- Whether the outcome is one in which response.json returned parsed data. -/
def jsonParsed : DIOutcome → Bool
  | .extractFail => true
  | .ok _ => true
  | _ => false

/-- The fixed apology string returned by deepinfra_response on failure. -/
def apologyMsg : String :=
  "I" ++ apos ++ "m sorry, I couldn" ++ apos ++
    "t get a response from DeepInfra right now."

/-- Model of deepinfra_response: the counter global is bumped after the JSON
body parse and before field extraction; every exception is caught and turned
into the apology string. -/
def deepinfra_response (o : DIOutcome) (st : BotState) : String × BotState :=
  match o with
  | .netFail => (apologyMsg, st)
  | .jsonFail => (apologyMsg, st)
  | .extractFail =>
      (apologyMsg, { st with deepinfra_requests := st.deepinfra_requests + 1 })
  | .ok content =>
      (content, { st with deepinfra_requests := st.deepinfra_requests + 1 })

/-- The disclaimer phrase checked by the g4f confidence test. -/
def dontKnowStr : String := "I don" ++ apos ++ "t know"

/-- Python substring membership on strings. -/
def containsSub (s pat : String) : Prop := pat.data <:+: s.data

instance (s pat : String) : Decidable (containsSub s pat) :=
  inferInstanceAs (Decidable (pat.data <:+: s.data))

/-- Newline join, models the str.join of the search result bodies. -/
def joinNL : List String → String
  | [] => ""
  | [s] => s
  | s :: rest => s ++ "\n" ++ joinNL rest

/-- The prompt extracted from the history: content of the last message,
or a fixed greeting when the history is empty. -/
def promptOf (history : List Msg) : String :=
  match history.getLast? with
  | some m => m.content
  | none => "Hello"

/-- Outcomes of the three external calls g4f_response can make: the first
completion, the web search (a list of result body texts), and the retry
completion.  An error value models the call raising, with the exception text. -/
structure G4fWorld where
  complete1 : Except String String
  search : Except String (List String)
  complete2 : Except String String

/-- Model of g4f_response.  Returns the reply text, the updated state, and
the trace of completion requests issued (each a message list).  The counter
is bumped once after the first completion succeeds; a low-confidence reply
(contains the disclaimer phrase or is shorter than 20 characters) triggers a
single search-augmented retry that discards the prior history; exceptions
anywhere are caught and reported as an error string. -/
def g4f_response (w : G4fWorld) (history : List Msg) (st : BotState) :
    String × BotState × List (List Msg) :=
  let prompt := promptOf history
  match w.complete1 with
  | .error e => ("Error: " ++ e, st, [history])
  | .ok response =>
    let st1 := { st with g4f_requests := st.g4f_requests + 1 }
    if containsSub response dontKnowStr ∨ response.length < 20 then
      match w.search with
      | .error e => ("Error: " ++ e, st1, [history])
      | .ok results =>
        let web_text := joinNL (results.take 3)
        let combined_prompt :=
          prompt ++ "\n\nUse this web info to answer:\n" ++ web_text
        match w.complete2 with
        | .error e => ("Error: " ++ e, st1, [history, [⟨"user", combined_prompt⟩]])
        | .ok response2 => (response2, st1, [history, [⟨"user", combined_prompt⟩]])
    else (response, st1, [history])

/-- The two providers a routing call can dispatch to. -/
inductive Provider where
  | deepinfra
  | g4f
deriving DecidableEq

/-- The option_to_use computation of get_ai_response: the owner temporary
override applies only when the caller identity is truthy, string-equal to
the owner and the override is truthy. -/
def routeOption (owner : Option String) (st : BotState)
    (user_id : Option PyId) : Nat :=
  if idTruthy user_id = true ∧ optIdStr user_id = ownerStr owner ∧
      tempTruthy st.owner_temp_option = true then
    tempValue st.owner_temp_option
  else st.current_option

/-- Model of get_ai_response: picks the option to use, then dispatches to
provider client B exactly when it equals 2 and to provider client A
otherwise. -/
def get_ai_response (owner : Option String) (wdi : DIOutcome) (wg : G4fWorld)
    (st : BotState) (history : List Msg) (user_id : Option PyId) :
    String × BotState × Provider :=
  if routeOption owner st user_id = 2 then
    ((g4f_response wg history st).1, (g4f_response wg history st).2.1,
      Provider.g4f)
  else
    ((deepinfra_response wdi st).1, (deepinfra_response wdi st).2,
      Provider.deepinfra)

/-- Whitespace test used by Python str.split with no separator argument. -/
def pyIsSpace (c : Char) : Bool :=
  c.isWhitespace || c == Char.ofNat 11 || c == Char.ofNat 12

/-- Splits a character list at every separator, returning the first chunk
and the remaining chunks. -/
def splitP (p : Char → Bool) : List Char → List Char × List (List Char)
  | [] => ([], [])
  | c :: cs =>
    if p c then ([], (splitP p cs).1 :: (splitP p cs).2)
    else (c :: (splitP p cs).1, (splitP p cs).2)

/-- All chunks of a split. -/
def splitChunks (p : Char → Bool) (s : List Char) : List (List Char) :=
  (splitP p s).1 :: (splitP p s).2

/-- Model of command.strip().split(): whitespace-delimited words, empty
chunks dropped. -/
def pySplit (s : String) : List String :=
  ((splitChunks pyIsSpace s.data).filter (· ≠ [])).map String.mk

/-- The refusal message for non-owner callers of the option command. -/
def refusalMsg : String := "⛔ Only the owner can use this command."

/-- The usage-help message for malformed option commands. -/
def usageMsg : String := "Usage: /tryoption <1|2> or /fixoption <1|2>"

/-- The invalid-option message for a value other than 1 or 2. -/
def invalidMsg : String := "❌ Invalid option. Choose 1 or 2."

/-- Confirmation for a temporary option switch. -/
def tryMsg (v : Nat) : String :=
  "✅ Temporary model switched to Option " ++ natRepr v ++ " (for owner only)."

/-- Confirmation for a permanent option switch. -/
def fixMsg (v : Nat) : String :=
  "✅ Global model permanently changed to Option " ++ natRepr v ++ "."

/-- Model of handle_option_command: owner check by string equality, then
whitespace split into exactly two tokens, command-name check, value check,
and finally the try/fix state updates. -/
def handle_option_command (owner : Option String) (st : BotState)
    (user_id : PyId) (command : String) : String × BotState :=
  if pyStr user_id ≠ ownerStr owner then
    (refusalMsg, st)
  else
    match pySplit command with
    | [cmd, value] =>
      if cmd ≠ "/tryoption" ∧ cmd ≠ "/fixoption" then (usageMsg, st)
      else if value ≠ "1" ∧ value ≠ "2" then (invalidMsg, st)
      else
        let v : Nat := if value = "1" then 1 else 2
        if cmd = "/tryoption" then
          (tryMsg v, { st with owner_temp_option := some v })
        else
          (fixMsg v, { st with current_option := v, owner_temp_option := none })
    | _ => (usageMsg, st)

/-- Model of handle_status_command: renders the two counters and the current
model line, honouring the owner temporary override under the same string
equality and truthiness guard as the router.  Pure read of the state. -/
def handle_status_command (owner : Option String) (st : BotState)
    (user_id : PyId) : String :=
  let option_display :=
    "Option 1 → DeepInfra\nTotal Requests: " ++ natRepr st.deepinfra_requests
      ++ "\n\n" ++
    "Option 2 → g4f + DuckDuckGo\nTotal Requests: " ++ natRepr st.g4f_requests
      ++ "\n\n"
  let current :=
    if pyStr user_id = ownerStr owner ∧ tempTruthy st.owner_temp_option = true
    then
      "Current Model: Option " ++ natRepr (tempValue st.owner_temp_option) ++
        " (temporary for owner)"
    else
      "Current Model: Option " ++ natRepr st.current_option
  "📊 Model Status\n\n" ++ option_display ++ current

/-- Value of one base64 alphabet character. -/
def b64Val (c : Char) : Option Nat :=
  if 65 ≤ c.toNat ∧ c.toNat ≤ 90 then some (c.toNat - 65)
  else if 97 ≤ c.toNat ∧ c.toNat ≤ 122 then some (c.toNat - 97 + 26)
  else if 48 ≤ c.toNat ∧ c.toNat ≤ 57 then some (c.toNat - 48 + 52)
  else if c == '+' then some 62
  else if c == '/' then some 63
  else none

/-- Decodes four-character base64 groups into bytes; padding is accepted only
at the very end, none is the decode error. -/
def b64Groups : List Char → Option (List Nat)
  | [] => some []
  | c1 :: c2 :: c3 :: c4 :: rest =>
    match b64Val c1, b64Val c2 with
    | some v1, some v2 =>
      if c3 = '=' ∧ c4 = '=' ∧ rest = [] then
        some [v1 * 4 + v2 / 16]
      else
        match b64Val c3 with
        | some v3 =>
          if c4 = '=' ∧ rest = [] then
            some [v1 * 4 + v2 / 16, (v2 % 16) * 16 + v3 / 4]
          else
            match b64Val c4 with
            | some v4 =>
              (b64Groups rest).map
                (fun bs => (v1 * 4 + v2 / 16) :: ((v2 % 16) * 16 + v3 / 4) ::
                  ((v3 % 4) * 64 + v4) :: bs)
            | none => none
        | none => none
    | _, _ => none
  | _ => none

/-- Model of base64.b64decode: characters outside the alphabet are discarded,
then the padded length must be a multiple of four; none models the decoder
raising. -/
def b64decode (s : String) : Option (List Nat) :=
  let cs := s.data.filter (fun c => (b64Val c).isSome || c == '=')
  if cs.length % 4 ≠ 0 then none else b64Groups cs

/-- Outcome of the external steps of create_image, in source order:
requestError models the GET raising a transport error, statusError models
raise_for_status on a non-2xx reply, jsonError models a malformed JSON body
or a missing image field, ok carries the base64 text of the image field. -/
inductive ImgOutcome where
  | requestError
  | statusError
  | jsonError
  | ok (image : String)
deriving DecidableEq

/-- Model of create_image: every exception is caught and yields none; on
success the decoded bytes of the image field are returned (a decode failure
is an exception, hence none as well). -/
def create_image (o : ImgOutcome) : Option (List Nat) :=
  match o with
  | .requestError => none
  | .statusError => none
  | .jsonError => none
  | .ok image =>
    match b64decode image with
    | some bytes => some bytes
    | none => none

/-- Whether a character list starts with the given pattern. -/
def listStartsWith : List Char → List Char → Bool
  | [], _ => true
  | _ :: _, [] => false
  | p :: ps, c :: cs => p == c && listStartsWith ps cs

/-- The characters of the text Current Model, the label of the status line. -/
def cmPat : List Char := ['C', 'u', 'r', 'r', 'e', 'n', 't', ' ', 'M', 'o', 'd', 'e', 'l']

/-- The lines of a character list, split at every newline. -/
def linesOf (s : List Char) : List (List Char) :=
  splitChunks (fun c => c == '\n') s

/-- Number of lines of a string that start with the text Current Model. -/
def countCMLines (s : String) : Nat :=
  (linesOf s.data).countP (fun l => listStartsWith cmPat l)

/-! Helper lemmas shared by the claim theorems. -/

theorem str_data_append (s t : String) : (s ++ t).data = s.data ++ t.data := rfl

theorem natRepr_data (n : Nat) : (natRepr n).data = natStr n := rfl

theorem option_fix_eval (owner : Option String) (st : BotState) (uid : PyId)
    (h : pyStr uid = ownerStr owner) (v : Nat) (hv : v = 1 ∨ v = 2) :
    handle_option_command owner st uid ("/fixoption " ++ natRepr v) =
      (fixMsg v, { st with current_option := v, owner_temp_option := none }) := by
  rcases hv with rfl | rfl <;>
    (unfold handle_option_command; rw [if_neg (not_not_intro h)]; rfl)

theorem option_try_eval (owner : Option String) (st : BotState) (uid : PyId)
    (h : pyStr uid = ownerStr owner) (v : Nat) (hv : v = 1 ∨ v = 2) :
    handle_option_command owner st uid ("/tryoption " ++ natRepr v) =
      (tryMsg v, { st with owner_temp_option := some v }) := by
  rcases hv with rfl | rfl <;>
    (unfold handle_option_command; rw [if_neg (not_not_intro h)]; rfl)

/-- C2 counterexample: a successful network call whose response body fails
to parse as JSON (outcome jsonFail) returns the apology and leaves the
counter at 5, while the claim requires any decoding failure of a successful
HTTP response to increment it. -/
theorem c2_counterexample :
    deepinfra_response DIOutcome.jsonFail (BotState.mk 1 none 5 7) =
      (apologyMsg, BotState.mk 1 none 5 7) ∧
    (deepinfra_response DIOutcome.jsonFail (BotState.mk 1 none 5 7)).2.deepinfra_requests = 5 := by
  exact ⟨rfl, rfl⟩

/-- C2 (amended): the Provider-A counter is incremented exactly when the
JSON parse of the response body succeeded (outcomes extractFail and ok), so
a field-extraction failure after the parse still increments it; a network
failure or a JSON-parse failure leaves it unchanged and yields the fixed
apology string; the other state fields are never touched. -/
theorem c2_counter_increment (o : DIOutcome) (st : BotState) :
    ((deepinfra_response o st).2.deepinfra_requests =
      st.deepinfra_requests + (if jsonParsed o = true then 1 else 0)) ∧
    ((deepinfra_response o st).2.g4f_requests = st.g4f_requests) ∧
    ((deepinfra_response o st).2.current_option = st.current_option) ∧
    ((deepinfra_response o st).2.owner_temp_option = st.owner_temp_option) ∧
    (o = DIOutcome.netFail → deepinfra_response o st = (apologyMsg, st)) ∧
    (o = DIOutcome.jsonFail → deepinfra_response o st = (apologyMsg, st)) ∧
    (o = DIOutcome.extractFail → deepinfra_response o st =
      (apologyMsg, { st with deepinfra_requests := st.deepinfra_requests + 1 })) ∧
    (∀ c, o = DIOutcome.ok c → deepinfra_response o st =
      (c, { st with deepinfra_requests := st.deepinfra_requests + 1 })) := by
  cases o <;> simp [deepinfra_response, jsonParsed]

/-- C2 witness: on a fully successful call the content is returned and the
counter goes from 0 to 1. -/
theorem c2_counter_increment_check :
    deepinfra_response (DIOutcome.ok "hi") (BotState.mk 1 none 0 0) =
      ("hi", BotState.mk 1 none 1 0) :=
  (c2_counter_increment (DIOutcome.ok "hi")
    (BotState.mk 1 none 0 0)).2.2.2.2.2.2.2 "hi" rfl

/-- C3 (confirmed): a caller whose string form differs from the owner gets
the fixed refusal message and the state, counters included, is returned
untouched, whatever the command text is. -/
theorem c3_refusal_frame (owner : Option String) (st : BotState) (uid : PyId)
    (cmd : String) (h : pyStr uid ≠ ownerStr owner) :
    handle_option_command owner st uid cmd = (refusalMsg, st) := by
  unfold handle_option_command
  rw [if_pos h]

/-- C3 witness: a non-owner caller is refused on a concrete state. -/
theorem c3_refusal_frame_check :
    handle_option_command (some "42") (BotState.mk 1 none 3 4) (PyId.int 7)
      "/fixoption 2" = (refusalMsg, BotState.mk 1 none 3 4) :=
  c3_refusal_frame (some "42") (BotState.mk 1 none 3 4) (PyId.int 7)
    "/fixoption 2" (by decide)

/-- C4 (confirmed): for the owner and a value v in one-or-two, fix v sets
the global option to v and clears the temporary override, try v sets the
override and leaves the global option untouched, each with its confirmation
message; after fix 2 every subsequent routing call, whatever its caller,
dispatches to provider client B. -/
theorem c4_fix_try_semantics (owner : Option String) (st : BotState)
    (uid : PyId) (v : Nat) (hpriv : pyStr uid = ownerStr owner)
    (hv : v = 1 ∨ v = 2) :
    handle_option_command owner st uid ("/fixoption " ++ natRepr v) =
      (fixMsg v, { st with current_option := v, owner_temp_option := none }) ∧
    handle_option_command owner st uid ("/tryoption " ++ natRepr v) =
      (tryMsg v, { st with owner_temp_option := some v }) ∧
    (∀ (uid2 : Option PyId) (wdi : DIOutcome) (wg : G4fWorld) (hist : List Msg),
      (get_ai_response owner wdi wg
        (handle_option_command owner st uid ("/fixoption " ++ natRepr 2)).2
        hist uid2).2.2 = Provider.g4f) := by
  refine ⟨option_fix_eval owner st uid hpriv v hv,
    option_try_eval owner st uid hpriv v hv, ?_⟩
  intro uid2 wdi wg hist
  rw [option_fix_eval owner st uid hpriv 2 (Or.inr rfl)]
  simp [get_ai_response, routeOption, tempTruthy]

/-- C4 witness: concrete owner, concrete state, value 2, plus the routing
call after fix 2 from a non-owner caller. -/
theorem c4_fix_try_semantics_check :
    handle_option_command (some "42") (BotState.mk 1 (some 1) 3 4) (PyId.int 42)
      ("/fixoption " ++ natRepr 2) = (fixMsg 2, BotState.mk 2 none 3 4) ∧
    handle_option_command (some "42") (BotState.mk 1 (some 1) 3 4) (PyId.int 42)
      ("/tryoption " ++ natRepr 2) = (tryMsg 2, BotState.mk 1 (some 2) 3 4) ∧
    (get_ai_response (some "42") DIOutcome.netFail
      ⟨Except.ok "x", Except.ok [], Except.ok "y"⟩
      (handle_option_command (some "42") (BotState.mk 1 (some 1) 3 4)
        (PyId.int 42) ("/fixoption " ++ natRepr 2)).2
      [] (some (PyId.int 9))).2.2 = Provider.g4f := by
  have h := c4_fix_try_semantics (some "42") (BotState.mk 1 (some 1) 3 4)
    (PyId.int 42) 2 (by decide) (Or.inr rfl)
  exact ⟨h.1, h.2.1, h.2.2 (some (PyId.int 9)) DIOutcome.netFail
    ⟨Except.ok "x", Except.ok [], Except.ok "y"⟩ []⟩

/-- C6 (confirmed): for the owner, a command that does not split into
exactly two tokens, or whose first token is not one of the two command
names, yields the usage-help string; a recognized command whose value token
is neither 1 nor 2 yields the invalid-option message; in every rejection
case the state is returned untouched. -/
theorem c6_rejection_cases (owner : Option String) (st : BotState)
    (uid : PyId) (cmd : String) (hpriv : pyStr uid = ownerStr owner) :
    ((pySplit cmd).length ≠ 2 →
      handle_option_command owner st uid cmd = (usageMsg, st)) ∧
    (∀ c v, pySplit cmd = [c, v] → c ≠ "/tryoption" → c ≠ "/fixoption" →
      handle_option_command owner st uid cmd = (usageMsg, st)) ∧
    (∀ c v, pySplit cmd = [c, v] → (c = "/tryoption" ∨ c = "/fixoption") →
      v ≠ "1" → v ≠ "2" →
      handle_option_command owner st uid cmd = (invalidMsg, st)) := by
  unfold handle_option_command
  rw [if_neg (not_not_intro hpriv)]
  refine ⟨?_, ?_, ?_⟩
  · intro hlen
    rcases hps : pySplit cmd with _ | ⟨c, _ | ⟨v, _ | ⟨w, rest⟩⟩⟩
    · rfl
    · rfl
    · rw [hps] at hlen; simp at hlen
    · rfl
  · intro c v hps hc1 hc2
    rw [hps]
    simp only []
    rw [if_pos ⟨hc1, hc2⟩]
  · intro c v hps hc hv1 hv2
    rw [hps]
    simp only []
    rw [if_neg (by rcases hc with rfl | rfl <;> simp), if_pos ⟨hv1, hv2⟩]

/-- C6 witness: a one-token command gets the usage message and an
out-of-range value gets the invalid-option message, both leaving a concrete
state unchanged. -/
theorem c6_rejection_cases_check :
    handle_option_command (some "42") (BotState.mk 1 none 3 4) (PyId.int 42)
      "hello" = (usageMsg, BotState.mk 1 none 3 4) ∧
    handle_option_command (some "42") (BotState.mk 1 none 3 4) (PyId.int 42)
      "/tryoption 3" = (invalidMsg, BotState.mk 1 none 3 4) := by
  have h1 := c6_rejection_cases (some "42") (BotState.mk 1 none 3 4)
    (PyId.int 42) "hello" (by decide)
  have h2 := c6_rejection_cases (some "42") (BotState.mk 1 none 3 4)
    (PyId.int 42) "/tryoption 3" (by decide)
  exact ⟨h1.1 (by decide),
    h2.2.2 "/tryoption" "3" (by decide) (Or.inl rfl) (by decide) (by decide)⟩

/-- C7 (confirmed): the image proxy is a total function; every error
outcome (transport error, non-2xx status, malformed JSON or missing image
field) yields the absent result, and on success it returns exactly the
base64 decoding of the image field, with a decode failure also absorbed
into the absent result. -/
theorem c7_image_absorbs_errors (o : ImgOutcome) :
    (o = ImgOutcome.requestError ∨ o = ImgOutcome.statusError ∨
        o = ImgOutcome.jsonError → create_image o = none) ∧
    (∀ img, o = ImgOutcome.ok img → b64decode img = none →
      create_image o = none) ∧
    (∀ img bytes, o = ImgOutcome.ok img → b64decode img = some bytes →
      create_image o = some bytes) := by
  refine ⟨?_, ?_, ?_⟩
  · rintro (rfl | rfl | rfl) <;> rfl
  · rintro img rfl h
    simp [create_image, h]
  · rintro img bytes rfl h
    simp [create_image, h]

/-- C7 witness: a concrete success decodes the base64 payload and a concrete
error outcome yields the absent result. -/
theorem c7_image_absorbs_errors_check :
    create_image (ImgOutcome.ok "aGk=") = some [104, 105] ∧
    create_image ImgOutcome.statusError = none := by
  refine ⟨(c7_image_absorbs_errors (ImgOutcome.ok "aGk=")).2.2 "aGk="
    [104, 105] rfl (by decide), ?_⟩
  exact (c7_image_absorbs_errors ImgOutcome.statusError).1 (Or.inr (Or.inl rfl))

/-- C10 (confirmed): authorization is bare string equality against the
owner configuration value; with the environment variable unset the
comparison target is the text None, so a caller whose identity reads None
passes the check, can mutate the selection state through both commands, and
is honoured by the router, while every caller reading differently is
refused. -/
theorem c10_owner_env_unset (st : BotState) :
    ownerStr none = "None" ∧
    pyStr (PyId.str "None") = "None" ∧
    handle_option_command none st (PyId.str "None")
        ("/fixoption " ++ natRepr 2) =
      (fixMsg 2, { st with current_option := 2, owner_temp_option := none }) ∧
    handle_option_command none st (PyId.str "None")
        ("/tryoption " ++ natRepr 1) =
      (tryMsg 1, { st with owner_temp_option := some 1 }) ∧
    (∀ (wdi : DIOutcome) (wg : G4fWorld) (hist : List Msg),
      (get_ai_response none wdi wg
        { st with current_option := 1, owner_temp_option := some 2 }
        hist (some (PyId.str "None"))).2.2 = Provider.g4f) ∧
    (∀ uid : PyId, pyStr uid ≠ "None" → ∀ cmd,
      handle_option_command none st uid cmd = (refusalMsg, st)) := by
  refine ⟨rfl, rfl, ?_, ?_, ?_, ?_⟩
  · exact option_fix_eval none st (PyId.str "None") rfl 2 (Or.inr rfl)
  · exact option_try_eval none st (PyId.str "None") rfl 1 (Or.inl rfl)
  · intro wdi wg hist
    rfl
  · intro uid h cmd
    have h2 : pyStr uid ≠ ownerStr none := h
    unfold handle_option_command
    rw [if_pos h2]

/-- C1 counterexample: with the owner value the text 0, the caller identity
int 0 is present and its string form equals the owner string, and the
override is set to 2, yet the routing call dispatches to provider client A,
because int 0 is falsy and the code guards the override with a truthiness
test on the identity. -/
theorem c1_counterexample :
    optIdStr (some (PyId.int 0)) = ownerStr (some "0") ∧
    (some (PyId.int 0) : Option PyId) ≠ none ∧
    (BotState.mk 1 (some 2) 0 0).owner_temp_option = some 2 ∧
    (get_ai_response (some "0") DIOutcome.netFail
      ⟨Except.ok "x", Except.ok [], Except.ok "y"⟩
      (BotState.mk 1 (some 2) 0 0) [] (some (PyId.int 0))).2.2 =
        Provider.deepinfra ∧
    Provider.deepinfra ≠ Provider.g4f := by
  decide

/-- C1 (amended): in a well-formed state, whenever the caller identity is
falsy (absent, zero or empty), or reads differently from the owner, or the
override is unset, routing follows the global selection (client B exactly
when it is 2); whenever the identity is truthy, reads equal to the owner
and the override is set, routing follows the override; and after an owner
try 1 while the global selection is 2, a routing call from a truthy owner
identity uses client A while any caller reading differently still gets
client B. -/
theorem c1_router_precedence (owner : Option String) (st : BotState)
    (uid : Option PyId) (wdi : DIOutcome) (wg : G4fWorld) (hist : List Msg)
    (hWF : StateWF st) :
    ((idTruthy uid = false ∨ optIdStr uid ≠ ownerStr owner ∨
        st.owner_temp_option = none) →
      (get_ai_response owner wdi wg st hist uid).2.2 =
        (if st.current_option = 2 then Provider.g4f else Provider.deepinfra)) ∧
    (∀ t, idTruthy uid = true → optIdStr uid = ownerStr owner →
      st.owner_temp_option = some t →
      (get_ai_response owner wdi wg st hist uid).2.2 =
        (if t = 2 then Provider.g4f else Provider.deepinfra)) ∧
    (∀ uo ux : PyId, pyTruthy uo = true → pyStr uo = ownerStr owner →
      pyStr ux ≠ ownerStr owner →
      ((get_ai_response owner wdi wg
          (handle_option_command owner { st with current_option := 2 } uo
            ("/tryoption " ++ natRepr 1)).2 hist (some uo)).2.2 =
        Provider.deepinfra ∧
       (get_ai_response owner wdi wg
          (handle_option_command owner { st with current_option := 2 } uo
            ("/tryoption " ++ natRepr 1)).2 hist (some ux)).2.2 =
        Provider.g4f)) := by
  refine ⟨?_, ?_, ?_⟩
  · intro h
    have hC : ¬(idTruthy uid = true ∧ optIdStr uid = ownerStr owner ∧
        tempTruthy st.owner_temp_option = true) := by
      rintro ⟨h1, h2, h3⟩
      rcases h with h | h | h
      · rw [h] at h1; cases h1
      · exact h h2
      · rw [h] at h3; cases h3
    have hro : routeOption owner st uid = st.current_option := by
      unfold routeOption; rw [if_neg hC]
    unfold get_ai_response
    rw [hro]
    by_cases h2 : st.current_option = 2
    · rw [if_pos h2, if_pos h2]
    · rw [if_neg h2, if_neg h2]
  · intro t htru heq hsome
    have ht : t = 1 ∨ t = 2 := by
      rcases hWF.2 with h | h | h <;> rw [hsome] at h
      · cases h
      · exact Or.inl (by injection h)
      · exact Or.inr (by injection h)
    have hC : idTruthy uid = true ∧ optIdStr uid = ownerStr owner ∧
        tempTruthy st.owner_temp_option = true :=
      ⟨htru, heq, by rw [hsome]; rcases ht with rfl | rfl <;> rfl⟩
    have hro : routeOption owner st uid = t := by
      unfold routeOption; rw [if_pos hC, hsome]; rfl
    unfold get_ai_response
    rw [hro]
    rcases ht with rfl | rfl
    · rw [if_neg (by decide), if_neg (by decide)]
    · rw [if_pos rfl, if_pos rfl]
  · intro uo ux htru heq hne
    rw [option_try_eval owner { st with current_option := 2 } uo heq 1
      (Or.inl rfl)]
    constructor
    · have hro : routeOption owner
          { st with current_option := 2, owner_temp_option := some 1 }
          (some uo) = 1 := by
        unfold routeOption
        rw [if_pos ⟨by simpa [idTruthy] using htru,
          by simpa [optIdStr] using heq, rfl⟩]
        rfl
      unfold get_ai_response
      rw [hro, if_neg (by decide)]
    · have hro : routeOption owner
          { st with current_option := 2, owner_temp_option := some 1 }
          (some ux) = 2 := by
        unfold routeOption
        rw [if_neg (by rintro ⟨-, h2, -⟩; exact hne (by simpa [optIdStr] using h2))]
      unfold get_ai_response
      rw [hro, if_pos rfl]

/-- C1 witness: a concrete run of the amended router theorem, covering the
global branch, the override branch, and the try-1 scenario. -/
theorem c1_router_precedence_check :
    (get_ai_response (some "42") DIOutcome.netFail
      ⟨Except.ok "x", Except.ok [], Except.ok "y"⟩
      (BotState.mk 2 none 0 0) [] (some (PyId.int 7))).2.2 = Provider.g4f ∧
    (get_ai_response (some "42") DIOutcome.netFail
      ⟨Except.ok "x", Except.ok [], Except.ok "y"⟩
      (BotState.mk 2 (some 1) 0 0) [] (some (PyId.int 42))).2.2 =
      Provider.deepinfra ∧
    (get_ai_response (some "42") DIOutcome.netFail
      ⟨Except.ok "x", Except.ok [], Except.ok "y"⟩
      (handle_option_command (some "42") (BotState.mk 2 none 0 0) (PyId.int 42)
        ("/tryoption " ++ natRepr 1)).2 [] (some (PyId.int 42))).2.2 =
      Provider.deepinfra := by
  have h1 := c1_router_precedence (some "42") (BotState.mk 2 none 0 0)
    (some (PyId.int 7)) DIOutcome.netFail
    ⟨Except.ok "x", Except.ok [], Except.ok "y"⟩ [] (by constructor <;> simp)
  have h2 := c1_router_precedence (some "42") (BotState.mk 2 (some 1) 0 0)
    (some (PyId.int 42)) DIOutcome.netFail
    ⟨Except.ok "x", Except.ok [], Except.ok "y"⟩ [] (by constructor <;> simp)
  have h3 := c1_router_precedence (some "42") (BotState.mk 2 none 0 0)
    (some (PyId.int 42)) DIOutcome.netFail
    ⟨Except.ok "x", Except.ok [], Except.ok "y"⟩ [] (by constructor <;> simp)
  refine ⟨?_, ?_, ?_⟩
  · exact h1.1 (Or.inr (Or.inl (by decide)))
  · exact h2.2.1 1 (by decide) (by decide) rfl
  · exact (h3.2.2 (PyId.int 42) (PyId.int 7) (by decide) (by decide)
      (by decide)).1

/-- C5 (confirmed): when the first completion succeeds with a low-confidence
reply (contains the disclaimer phrase or is shorter than 20 characters) and
the search and retry succeed, g4f_response performs exactly one retry whose
single user message is the prompt combined with the newline-joined bodies of
the first three search results, returns the retry result, and increments the
Provider-B counter exactly once. -/
theorem c5_g4f_fallback (w : G4fWorld) (hist : List Msg) (st : BotState)
    (r1 : String) (bodies : List String) (r2 : String)
    (hc1 : w.complete1 = Except.ok r1)
    (hlow : containsSub r1 dontKnowStr ∨ r1.length < 20)
    (hs : w.search = Except.ok bodies) (hc2 : w.complete2 = Except.ok r2) :
    g4f_response w hist st =
      (r2, { st with g4f_requests := st.g4f_requests + 1 },
        [hist, [⟨"user", promptOf hist ++ "\n\nUse this web info to answer:\n"
          ++ joinNL (bodies.take 3)⟩]]) := by
  unfold g4f_response
  rw [hc1]
  simp only []
  rw [if_pos hlow, hs]
  simp only []
  rw [hc2]

/-- C5 witness: a concrete short first reply triggers the search-augmented
retry, whose combined prompt and final result are computed explicitly; the
counter ends at exactly 1. -/
theorem c5_g4f_fallback_check :
    g4f_response ⟨Except.ok "short", Except.ok ["b1", "b2", "b3", "b4"],
        Except.ok "answer"⟩ [⟨"user", "q"⟩] (BotState.mk 1 none 0 0) =
      ("answer", BotState.mk 1 none 0 1,
        [[⟨"user", "q"⟩],
         [⟨"user", "q\n\nUse this web info to answer:\nb1\nb2\nb3"⟩]]) := by
  have h := c5_g4f_fallback
    ⟨Except.ok "short", Except.ok ["b1", "b2", "b3", "b4"], Except.ok "answer"⟩
    [⟨"user", "q"⟩] (BotState.mk 1 none 0 0) "short" ["b1", "b2", "b3", "b4"]
    "answer" rfl (Or.inr (by decide)) rfl rfl
  exact h

/-- C10 witness: with no owner configured, a None-reading caller mutates the
state while an int caller is refused. -/
theorem c10_owner_env_unset_check :
    handle_option_command none (BotState.mk 1 none 0 0) (PyId.str "None")
      ("/fixoption " ++ natRepr 2) = (fixMsg 2, BotState.mk 2 none 0 0) ∧
    handle_option_command none (BotState.mk 1 none 0 0) (PyId.int 7)
      "/fixoption 2" = (refusalMsg, BotState.mk 1 none 0 0) := by
  have h := c10_owner_env_unset (BotState.mk 1 none 0 0)
  exact ⟨h.2.2.1, h.2.2.2.2.2 (PyId.int 7) (by decide) "/fixoption 2"⟩

/-- C8 (confirmed): an owner fix 1 followed by an owner fix 2 leaves the
state with global selection 2, no override, and both counters exactly as
before, and the status report then shown to any caller names Option 2 as the
current model with the original counter values. -/
theorem c8_roundtrip (owner : Option String) (st : BotState) (uid : PyId)
    (hpriv : pyStr uid = ownerStr owner) :
    (handle_option_command owner
        (handle_option_command owner st uid ("/fixoption " ++ natRepr 1)).2
        uid ("/fixoption " ++ natRepr 2)).2 =
      { st with current_option := 2, owner_temp_option := none } ∧
    (∀ uid2 : PyId, handle_status_command owner
        (handle_option_command owner
          (handle_option_command owner st uid ("/fixoption " ++ natRepr 1)).2
          uid ("/fixoption " ++ natRepr 2)).2 uid2 =
      "📊 Model Status\n\n" ++
        ("Option 1 → DeepInfra\nTotal Requests: "
          ++ natRepr st.deepinfra_requests ++ "\n\n" ++
         "Option 2 → g4f + DuckDuckGo\nTotal Requests: "
          ++ natRepr st.g4f_requests ++ "\n\n") ++
        ("Current Model: Option " ++ natRepr 2)) := by
  rw [option_fix_eval owner st uid hpriv 1 (Or.inl rfl)]
  rw [option_fix_eval owner _ uid hpriv 2 (Or.inr rfl)]
  refine ⟨rfl, ?_⟩
  intro uid2
  unfold handle_status_command
  rw [if_neg (by rintro ⟨-, h⟩; cases h)]

theorem splitP_sep (p : Char → Bool) (c : Char) (cs : List Char)
    (h : p c = true) :
    splitP p (c :: cs) = ([], (splitP p cs).1 :: (splitP p cs).2) := by
  simp [splitP, h]

theorem splitP_clean_append (p : Char → Bool) (a b : List Char)
    (h : ∀ c ∈ a, p c = false) :
    splitP p (a ++ b) = (a ++ (splitP p b).1, (splitP p b).2) := by
  induction a with
  | nil => simp
  | cons c cs ih =>
    have hc := h c (List.mem_cons_self c cs)
    have ih2 := ih (fun x hx => h x (List.mem_cons_of_mem c hx))
    simp [splitP, hc, ih2]

theorem splitP_clean (p : Char → Bool) (a : List Char)
    (h : ∀ c ∈ a, p c = false) : splitP p a = (a, []) := by
  have h2 := splitP_clean_append p a [] h
  simpa [splitP] using h2

theorem listStartsWith_self (l x : List Char) :
    listStartsWith l (l ++ x) = true := by
  induction l with
  | nil => rfl
  | cons c cs ih => simp [listStartsWith, ih]

theorem digitChar_no_nl (k : Nat) (h : k < 10) :
    (digitChar k == '\n') = false := by
  interval_cases k <;> decide

theorem natStrAux_no_nl (fuel : Nat) :
    ∀ n, ∀ c ∈ natStrAux fuel n, (c == '\n') = false := by
  induction fuel with
  | zero => intro n c hc; cases hc
  | succ fuel ih =>
    intro n c hc
    simp only [natStrAux] at hc
    split at hc
    · next hn =>
      simp only [List.mem_singleton] at hc
      subst hc
      exact digitChar_no_nl n hn
    · next hn =>
      rcases List.mem_append.mp hc with h1 | h1
      · exact ih (n / 10) c h1
      · simp only [List.mem_singleton] at h1
        subst h1
        exact digitChar_no_nl (n % 10) (Nat.mod_lt n (by norm_num))

theorem natStr_no_nl (n : Nat) : ∀ c ∈ natStr n, (c == '\n') = false :=
  natStrAux_no_nl (n + 1) n

theorem status_data (owner : Option String) (st : BotState) (uid : PyId) :
    (handle_status_command owner st uid).data =
      "📊 Model Status".data ++ ('\n' :: ('\n' ::
      ("Option 1 → DeepInfra".data ++ ('\n' ::
      ("Total Requests: ".data ++ (natStr st.deepinfra_requests ++ ('\n' :: ('\n' ::
      ("Option 2 → g4f + DuckDuckGo".data ++ ('\n' ::
      ("Total Requests: ".data ++ (natStr st.g4f_requests ++ ('\n' :: ('\n' ::
      (if pyStr uid = ownerStr owner ∧ tempTruthy st.owner_temp_option = true
       then "Current Model: Option ".data ++
         (natStr (tempValue st.owner_temp_option) ++ " (temporary for owner)".data)
       else "Current Model: Option ".data ++ natStr st.current_option))))))))))))))) := by
  have e1 : ("📊 Model Status\n\n" : String).data =
      "📊 Model Status".data ++ ['\n', '\n'] := by decide
  have e2 : ("Option 1 → DeepInfra\nTotal Requests: " : String).data =
      "Option 1 → DeepInfra".data ++ '\n' :: "Total Requests: ".data := by decide
  have e3 : ("\n\n" : String).data = ['\n', '\n'] := by decide
  have e4 : ("Option 2 → g4f + DuckDuckGo\nTotal Requests: " : String).data =
      "Option 2 → g4f + DuckDuckGo".data ++ '\n' :: "Total Requests: ".data := by
    decide
  have e5 : ("Current Model: Option " : String).data ≠ [] := by decide
  unfold handle_status_command
  by_cases hc : pyStr uid = ownerStr owner ∧ tempTruthy st.owner_temp_option = true
  · rw [if_pos hc, if_pos hc]
    simp only [str_data_append, natRepr_data, e1, e2, e3, e4,
      List.cons_append, List.nil_append, List.append_assoc]
  · rw [if_neg hc, if_neg hc]
    simp only [str_data_append, natRepr_data, e1, e2, e3, e4,
      List.cons_append, List.nil_append, List.append_assoc]

theorem tr_not_cm (X : List Char) :
    listStartsWith cmPat ('T' :: X) = false := rfl

theorem cm_line_starts (X : List Char) :
    listStartsWith cmPat ("Current Model: Option ".data ++ X) = true := by
  have e : ("Current Model: Option " : String).data =
      cmPat ++ ": Option ".data := by decide
  rw [e, List.append_assoc]
  exact listStartsWith_self cmPat (": Option ".data ++ X)

theorem countP_status_lines (D G tl : List Char)
    (hD : ∀ c ∈ D, (c == '\n') = false) (hG : ∀ c ∈ G, (c == '\n') = false)
    (htl : ∀ c ∈ tl, (c == '\n') = false)
    (hcm : listStartsWith cmPat tl = true) :
    (linesOf ("📊 Model Status".data ++ ('\n' :: ('\n' ::
      ("Option 1 → DeepInfra".data ++ ('\n' ::
      ("Total Requests: ".data ++ (D ++ ('\n' :: ('\n' ::
      ("Option 2 → g4f + DuckDuckGo".data ++ ('\n' ::
      ("Total Requests: ".data ++ (G ++ ('\n' :: ('\n' ::
      tl)))))))))))))))).countP (fun l => listStartsWith cmPat l) = 1 := by
  have h1 : ∀ c ∈ "📊 Model Status".data, (c == '\n') = false := by decide
  have h2 : ∀ c ∈ "Option 1 → DeepInfra".data, (c == '\n') = false := by decide
  have h3 : ∀ c ∈ "Total Requests: ".data, (c == '\n') = false := by decide
  have h4 : ∀ c ∈ "Option 2 → g4f + DuckDuckGo".data, (c == '\n') = false := by
    decide
  unfold linesOf splitChunks
  rw [splitP_clean_append _ _ _ h1, splitP_sep _ _ _ rfl, splitP_sep _ _ _ rfl,
    splitP_clean_append _ _ _ h2, splitP_sep _ _ _ rfl,
    splitP_clean_append _ _ _ h3, splitP_clean_append _ _ _ hD,
    splitP_sep _ _ _ rfl, splitP_sep _ _ _ rfl,
    splitP_clean_append _ _ _ h4, splitP_sep _ _ _ rfl,
    splitP_clean_append _ _ _ h3, splitP_clean_append _ _ _ hG,
    splitP_sep _ _ _ rfl, splitP_sep _ _ _ rfl,
    splitP_clean _ _ htl]
  have d1 : listStartsWith cmPat "📊 Model Status".data = false := by decide
  have d2 : listStartsWith cmPat ([] : List Char) = false := by decide
  have d3 : listStartsWith cmPat "Option 1 → DeepInfra".data = false := by decide
  have d4 : listStartsWith cmPat "Option 2 → g4f + DuckDuckGo".data = false := by
    decide
  simp [List.countP_cons, List.countP_nil, List.append_nil, d1, d2, d3, d4,
    tr_not_cm, hcm]

/-- C9 (confirmed): for every caller and every state, the status report has
exactly one line starting with the text Current Model, contains both
counter values after their Total Requests labels, ends with the override
value labelled temporary for owner when the caller reads equal to the owner
and the override is truthy, and ends with the global selection otherwise;
the reporter is a pure total function of the state. -/
theorem c9_status_report (owner : Option String) (st : BotState) (uid : PyId) :
    countCMLines (handle_status_command owner st uid) = 1 ∧
    ("Total Requests: " ++ natRepr st.deepinfra_requests).data <:+:
      (handle_status_command owner st uid).data ∧
    ("Total Requests: " ++ natRepr st.g4f_requests).data <:+:
      (handle_status_command owner st uid).data ∧
    (pyStr uid = ownerStr owner ∧ tempTruthy st.owner_temp_option = true →
      ∃ pre, (handle_status_command owner st uid).data =
        pre ++ ("Current Model: Option "
          ++ natRepr (tempValue st.owner_temp_option)
          ++ " (temporary for owner)").data) ∧
    (¬(pyStr uid = ownerStr owner ∧ tempTruthy st.owner_temp_option = true) →
      ∃ pre, (handle_status_command owner st uid).data =
        pre ++ ("Current Model: Option " ++ natRepr st.current_option).data) := by
  have hd := status_data owner st uid
  have hlit1 : ∀ c ∈ "Current Model: Option ".data, (c == '\n') = false := by
    decide
  have hlit2 : ∀ c ∈ " (temporary for owner)".data, (c == '\n') = false := by
    decide
  refine ⟨?_, ?_, ?_, ?_, ?_⟩
  · unfold countCMLines
    rw [hd]
    by_cases hc : pyStr uid = ownerStr owner ∧
        tempTruthy st.owner_temp_option = true
    · rw [if_pos hc]
      apply countP_status_lines _ _ _ (natStr_no_nl _) (natStr_no_nl _)
      · intro c hcm
        rcases List.mem_append.mp hcm with h | h
        · exact hlit1 c h
        · rcases List.mem_append.mp h with h | h
          · exact natStr_no_nl _ c h
          · exact hlit2 c h
      · exact cm_line_starts _
    · rw [if_neg hc]
      apply countP_status_lines _ _ _ (natStr_no_nl _) (natStr_no_nl _)
      · intro c hcm
        rcases List.mem_append.mp hcm with h | h
        · exact hlit1 c h
        · exact natStr_no_nl _ c h
      · exact cm_line_starts _
  · rw [hd]
    refine ⟨"📊 Model Status".data ++ ('\n' :: ('\n' ::
      ("Option 1 → DeepInfra".data ++ ['\n']))),
      '\n' :: ('\n' :: ("Option 2 → g4f + DuckDuckGo".data ++ ('\n' ::
      ("Total Requests: ".data ++ (natStr st.g4f_requests ++ ('\n' :: ('\n' ::
      (if pyStr uid = ownerStr owner ∧ tempTruthy st.owner_temp_option = true
       then "Current Model: Option ".data ++
         (natStr (tempValue st.owner_temp_option) ++
           " (temporary for owner)".data)
       else "Current Model: Option ".data ++
         natStr st.current_option)))))))), ?_⟩
    simp only [str_data_append, natRepr_data]
    simp [List.append_assoc]
  · rw [hd]
    refine ⟨"📊 Model Status".data ++ ('\n' :: ('\n' ::
      ("Option 1 → DeepInfra".data ++ ('\n' ::
      ("Total Requests: ".data ++ (natStr st.deepinfra_requests ++ ('\n' ::
      ('\n' :: ("Option 2 → g4f + DuckDuckGo".data ++ ['\n']))))))))),
      '\n' :: ('\n' ::
      (if pyStr uid = ownerStr owner ∧ tempTruthy st.owner_temp_option = true
       then "Current Model: Option ".data ++
         (natStr (tempValue st.owner_temp_option) ++
           " (temporary for owner)".data)
       else "Current Model: Option ".data ++ natStr st.current_option)), ?_⟩
    simp only [str_data_append, natRepr_data]
    simp [List.append_assoc]
  · intro hc
    rw [hd, if_pos hc]
    refine ⟨"📊 Model Status".data ++ ('\n' :: ('\n' ::
      ("Option 1 → DeepInfra".data ++ ('\n' ::
      ("Total Requests: ".data ++ (natStr st.deepinfra_requests ++ ('\n' ::
      ('\n' :: ("Option 2 → g4f + DuckDuckGo".data ++ ('\n' ::
      ("Total Requests: ".data ++ (natStr st.g4f_requests ++
        ['\n', '\n'])))))))))))), ?_⟩
    simp only [str_data_append, natRepr_data]
    simp [List.append_assoc]
  · intro hc
    rw [hd, if_neg hc]
    refine ⟨"📊 Model Status".data ++ ('\n' :: ('\n' ::
      ("Option 1 → DeepInfra".data ++ ('\n' ::
      ("Total Requests: ".data ++ (natStr st.deepinfra_requests ++ ('\n' ::
      ('\n' :: ("Option 2 → g4f + DuckDuckGo".data ++ ('\n' ::
      ("Total Requests: ".data ++ (natStr st.g4f_requests ++
        ['\n', '\n'])))))))))))), ?_⟩
    simp only [str_data_append, natRepr_data]
    simp [List.append_assoc]

/-- C9 witness: on a concrete state the report has one Current Model line,
and for the owner with an override the report ends with the temporary
label. -/
theorem c9_status_report_check :
    countCMLines (handle_status_command (some "42") (BotState.mk 1 (some 2) 3 4)
      (PyId.int 42)) = 1 ∧
    (∃ pre, (handle_status_command (some "42") (BotState.mk 1 (some 2) 3 4)
        (PyId.int 42)).data =
      pre ++ ("Current Model: Option " ++ natRepr 2
        ++ " (temporary for owner)").data) ∧
    countCMLines (handle_status_command (some "42") (BotState.mk 2 none 3 4)
      (PyId.int 7)) = 1 := by
  have h1 := c9_status_report (some "42") (BotState.mk 1 (some 2) 3 4)
    (PyId.int 42)
  have h2 := c9_status_report (some "42") (BotState.mk 2 none 3 4) (PyId.int 7)
  exact ⟨h1.1, h1.2.2.2.1 (by decide), h2.1⟩

/-- C8 witness: a concrete fix 1 then fix 2 run, ending in global selection
2 with counters 3 and 4 intact and the corresponding literal report. -/
theorem c8_roundtrip_check :
    (handle_option_command (some "42")
        (handle_option_command (some "42") (BotState.mk 1 (some 2) 3 4)
          (PyId.int 42) ("/fixoption " ++ natRepr 1)).2
        (PyId.int 42) ("/fixoption " ++ natRepr 2)).2 =
      BotState.mk 2 none 3 4 ∧
    handle_status_command (some "42")
        (handle_option_command (some "42")
          (handle_option_command (some "42") (BotState.mk 1 (some 2) 3 4)
            (PyId.int 42) ("/fixoption " ++ natRepr 1)).2
          (PyId.int 42) ("/fixoption " ++ natRepr 2)).2 (PyId.int 7) =
      "📊 Model Status\n\nOption 1 → DeepInfra\nTotal Requests: 3\n\nOption 2 → g4f + DuckDuckGo\nTotal Requests: 4\n\nCurrent Model: Option 2" := by
  have h := c8_roundtrip (some "42") (BotState.mk 1 (some 2) 3 4) (PyId.int 42)
    (by decide)
  refine ⟨h.1, ?_⟩
  have h2 := h.2 (PyId.int 7)
  rw [h2]
  decide
